import Mathlib

/-!
Shallow embedding of `modsecurity.go` from the traefik-modsecurity-plugin
repository: an inline HTTP request-inspection gate that forwards each
request to a ModSecurity decision service and, depending on the verdict
status code and the configured error policy, invokes the upstream handler,
relays the verdict response, or answers with a terse error response.

Go's `http.Header` is a map from canonical header names to lists of
values; we embed it as an association list whose keys are unique in
well-formed headers.  IO outcomes that the Go code observes (the result
of reading the request body through `http.MaxBytesReader`, the success of
`http.NewRequest`, and the result of `httpClient.Do`) are supplied as an
explicit `World` record, so `ServeHTTP` becomes a pure function on it.
-/

namespace ModsecurityPlugin

/-- An HTTP header multimap: canonical key, ordered list of values
(embedding of Go's `http.Header`). -/
abbrev Header := List (String × List String)

/-- Lookup of `h[k]` on a Go header map: the value list of the first
(in a well-formed map, the only) entry with key `k`, or `[]`. -/
def headerValues (h : Header) (k : String) : List String :=
  match h.find? (fun p => p.1 == k) with
  | some p => p.2
  | none => []

/-- An inbound HTTP request: method, raw request URI, header map, and the
byte sequence carried by the original body stream. -/
structure Request where
  method : String
  requestURI : String
  header : Header
  body : List Nat

/-- An HTTP response from the decision service: status code, header map,
body bytes (embedding of Go's `http.Response` as used here). -/
structure Response where
  statusCode : Nat
  header : Header
  body : List Nat

/-- The plugin configuration (`Config` in the source). -/
structure Config where
  modSecurityUrl : String
  maxBodySize : Int
  interruptOnError : Bool
  ignore500Error : Bool

/-- `CreateConfig`: the default plugin configuration. -/
def CreateConfig : Config :=
  { modSecurityUrl := ""
    maxBodySize := 10 * 1024 * 1024
    interruptOnError := true
    ignore500Error := false }

/-- The gate instance (`Modsecurity` in the source; the upstream handler
and the logger are external collaborators and are not part of the state
the claims are about). -/
structure Modsecurity where
  modSecurityUrl : String
  maxBodySize : Int
  interruptOnError : Bool
  ignore500Error : Bool
  name : String

/-- `New`: constructs the gate, failing when the decision-service URL is
empty. -/
def New (config : Config) (name : String) : Except String Modsecurity :=
  if config.modSecurityUrl.length == 0 then
    .error "modSecurityUrl cannot be empty"
  else
    .ok { modSecurityUrl := config.modSecurityUrl
          maxBodySize := config.maxBodySize
          interruptOnError := config.interruptOnError
          ignore500Error := config.ignore500Error
          name := name }

/-- The state of `req.Body` at the moment the upstream handler is invoked:
either still the original inbound stream object (never replaced; possibly
partially consumed by an aborted capture), or the fresh in-memory buffer
`ioutil.NopCloser(bytes.NewReader(body))` installed after a successful
capture. -/
inductive Body where
  | originalStream
  | buffered (bytes : List Nat)
deriving DecidableEq, Repr

/-- What the client response looks like after `forwardResponse`: status,
deduplicated headers (one value per key, written via `Set`), body bytes. -/
structure ClientResponse where
  status : Nat
  headers : List (String × String)
  body : List Nat
deriving DecidableEq, Repr

/-- The observable outcome of one `ServeHTTP` invocation:
`upstream b` — `a.next.ServeHTTP` was invoked with `req.Body` in state `b`;
`relay cr` — the verdict response was copied to the client by
`forwardResponse`; `errorResponse code` — `http.Error(rw, "", code)` was
written (a terse response with the given status and an empty message). -/
inductive GateResult where
  | upstream (reqBody : Body)
  | relay (resp : ClientResponse)
  | errorResponse (code : Nat)
deriving DecidableEq, Repr

/-- `rw.Header().Set(k, v)` on a deduplicated header list: replace the
entry for `k` if present, else append it. -/
def setHeader : List (String × String) → String → String → List (String × String)
  | [], k, v => [(k, v)]
  | p :: rest, k, v => if p.1 == k then (k, v) :: rest else p :: setHeader rest k v

/-- The inner loop of `forwardResponse`: `Set` every value of one header
entry in order, so the last value of the entry wins. -/
def setEntry (acc : List (String × String)) (p : String × List String) :
    List (String × String) :=
  p.2.foldl (fun a v => setHeader a p.1 v) acc

/-- The header-copying loop of `forwardResponse`: for every key/value pair
of the verdict response, `rw.Header().Set(k, v)`. -/
def copyHeaders (h : Header) : List (String × String) :=
  h.foldl setEntry []

/-- `forwardResponse`: copy headers (with `Set` semantics), status code,
and body of the verdict response onto the client response. -/
def forwardResponse (resp : Response) : ClientResponse :=
  { status := resp.statusCode
    headers := copyHeaders resp.header
    body := resp.body }

/-- `handleError`: if `interruptOnError` write `http.Error(rw, "", code)`,
else invoke the upstream handler with the request as it currently stands
(`reqBody` is the state of `req.Body` at the call site). -/
def handleError (a : Modsecurity) (reqBody : Body) (code : Nat) : GateResult :=
  if a.interruptOnError then .errorResponse code else .upstream reqBody

/-- `isWebsocket`: some value of `req.Header["Upgrade"]` is exactly the
string `"websocket"` (case-sensitive). -/
def isWebsocket (req : Request) : Bool :=
  (headerValues req.header "Upgrade").any (fun header => header == "websocket")

/-- `ioutil.ReadAll(http.MaxBytesReader(rw, req.Body, maxBodySize))` on an
undisturbed stream: the full body when its length is within the limit,
otherwise the error `"http: request body too large"`. -/
def readAllMaxBytes (body : List Nat) (maxBodySize : Int) : Except String (List Nat) :=
  if (body.length : Int) ≤ maxBodySize then .ok body
  else .error "http: request body too large"

/-- The IO outcomes one `ServeHTTP` invocation observes: the result of
reading the body, whether `http.NewRequest` failed (and with what
message), and the result of `httpClient.Do` (transport failure or the
verdict response). -/
structure World where
  readResult : Except String (List Nat)
  newRequestError : Option String
  doResult : Except String Response

/-- The outcome of `ServeHTTP` together with whether `httpClient.Do` was
invoked (whether an outbound call to the decision service was attempted). -/
structure Effects where
  result : GateResult
  verdictContacted : Bool
deriving DecidableEq, Repr

/-- The body of `ServeHTTP` after the websocket check: capture the body,
build and send the verdict request, branch on the verdict status code. -/
def inspect (a : Modsecurity) (w : World) : Effects :=
  match w.readResult with
  | .error e =>
    if e == "http: request body too large" then
      ⟨handleError a .originalStream 413, false⟩
    else
      ⟨handleError a .originalStream 502, false⟩
  | .ok body =>
    -- req.Body = ioutil.NopCloser(bytes.NewReader(body))
    match w.newRequestError with
    | some _ => ⟨handleError a (.buffered body) 502, false⟩
    | none =>
      match w.doResult with
      | .error _ => ⟨handleError a (.buffered body) 502, true⟩
      | .ok resp =>
        if 400 ≤ resp.statusCode then
          if resp.statusCode < 500 ∨ a.ignore500Error = false then
            ⟨.relay (forwardResponse resp), true⟩
          else
            ⟨.upstream (.buffered body), true⟩
        else
          ⟨.upstream (.buffered body), true⟩

/-- `ServeHTTP` without the deferred recover: websocket requests bypass
inspection, everything else goes through `inspect`. -/
def ServeHTTP (a : Modsecurity) (req : Request) (w : World) : Effects :=
  if isWebsocket req then ⟨.upstream .originalStream, false⟩
  else inspect a w

/-- `ServeHTTP` including the deferred `recover`: when a panic is raised
somewhere in the pipeline (`panicAt` records the state `req.Body` had at
that moment), the recover clause routes it to
`handleError(rw, req, ..., http.StatusBadGateway)`; otherwise the normal
pipeline runs. -/
def ServeHTTPWithRecover (a : Modsecurity) (panicAt : Option Body)
    (req : Request) (w : World) : GateResult :=
  match panicAt with
  | some reqBody => handleError a reqBody 502
  | none => (ServeHTTP a req w).result

/-- Lookup in a deduplicated client-header list (what `rw.Header().Get`
would see for a single-valued key). -/
def hLookup (hs : List (String × String)) (k : String) : Option String :=
  (hs.find? (fun p => p.1 == k)).map (fun p => p.2)

/-- The last element of a value list: the value that survives when every
value of the list is written with `Set` semantics in order. -/
def lastValue? : List String → Option String
  | [] => none
  | [v] => some v
  | _ :: v :: vs => lastValue? (v :: vs)

theorem hLookup_setHeader_same (hs : List (String × String)) (k v : String) :
    hLookup (setHeader hs k v) k = some v := by
  induction hs with
  | nil => simp [setHeader, hLookup]
  | cons p rest ih =>
    by_cases h : p.1 == k
    · simp [setHeader, h, hLookup]
    · simp only [setHeader, h, if_neg, Bool.false_eq_true, not_false_iff, ite_false]
      simpa [hLookup, List.find?, h] using ih

theorem hLookup_setHeader_ne (hs : List (String × String)) (k v k' : String)
    (hne : k' ≠ k) : hLookup (setHeader hs k v) k' = hLookup hs k' := by
  have hkk : (k == k') = false := by
    simp only [beq_eq_false_iff_ne]; exact fun h => hne h.symm
  induction hs with
  | nil => simp [setHeader, hLookup, List.find?, hkk]
  | cons p rest ih =>
    by_cases h : p.1 == k
    · have hp : p.1 = k := by simpa using h
      simp [setHeader, h, hLookup, List.find?, hkk, hp]
    · by_cases h' : p.1 == k'
      · simp [setHeader, h, hLookup, List.find?, h']
      · simp only [setHeader, h, Bool.false_eq_true, if_false]
        simpa [hLookup, List.find?, h'] using ih

theorem lastValue?_cons_some (v : String) (vs : List String) :
    ∃ u, lastValue? (v :: vs) = some u := by
  induction vs generalizing v with
  | nil => exact ⟨v, rfl⟩
  | cons w ws ih => simpa [lastValue?] using ih w

theorem hLookup_setEntry_same (vs : List String) (k : String)
    (acc : List (String × String)) :
    hLookup (setEntry acc (k, vs)) k =
      match lastValue? vs with
      | some v => some v
      | none => hLookup acc k := by
  induction vs generalizing acc with
  | nil => rfl
  | cons v vs ih =>
    cases vs with
    | nil => simp [setEntry, lastValue?, hLookup_setHeader_same]
    | cons v' vs' =>
      obtain ⟨u, hu⟩ := lastValue?_cons_some v' vs'
      have h2 := ih (setHeader acc k v)
      rw [hu] at h2
      have hl : lastValue? (v :: v' :: vs') = some u := by
        simpa [lastValue?] using hu
      rw [hl]
      simpa [setEntry] using h2

theorem hLookup_setEntry_ne (vs : List String) (k k' : String)
    (acc : List (String × String)) (hne : k' ≠ k) :
    hLookup (setEntry acc (k, vs)) k' = hLookup acc k' := by
  induction vs generalizing acc with
  | nil => rfl
  | cons v vs ih =>
    simpa [setEntry, hLookup_setHeader_ne _ _ _ _ hne] using ih (setHeader acc k v)

theorem headerValues_of_not_mem (h : Header) (k : String)
    (hk : k ∉ h.map Prod.fst) : headerValues h k = [] := by
  induction h with
  | nil => rfl
  | cons p rest ih =>
    simp only [List.map_cons, List.mem_cons, not_or] at hk
    have hp : (p.1 == k) = false := by
      simp only [beq_eq_false_iff_ne]; exact fun h => hk.1 h.symm
    simpa [headerValues, List.find?, hp] using ih hk.2

theorem hLookup_foldl_setEntry (h : Header) (k : String)
    (hnd : (h.map Prod.fst).Nodup) (acc : List (String × String)) :
    hLookup (h.foldl setEntry acc) k =
      match lastValue? (headerValues h k) with
      | some v => some v
      | none => hLookup acc k := by
  induction h generalizing acc with
  | nil => rfl
  | cons p rest ih =>
    obtain ⟨k₁, vs₁⟩ := p
    simp only [List.map_cons, List.nodup_cons] at hnd
    rw [List.foldl_cons, ih hnd.2]
    by_cases hk : k₁ = k
    · subst hk
      have hrest : headerValues rest k₁ = [] :=
        headerValues_of_not_mem rest k₁ hnd.1
      rw [hrest]
      have hhead : headerValues ((k₁, vs₁) :: rest) k₁ = vs₁ := by
        simp [headerValues, List.find?]
      rw [hhead]
      simpa [lastValue?] using hLookup_setEntry_same vs₁ k₁ acc
    · have hk₁ : (k₁ == k) = false := by
        simp only [beq_eq_false_iff_ne]; exact hk
      have hhead : headerValues ((k₁, vs₁) :: rest) k = headerValues rest k := by
        simp [headerValues, List.find?, hk₁]
      rw [hhead, hLookup_setEntry_ne vs₁ k₁ k acc (fun h => hk h.symm)]

/-- `Set` semantics of the header copy: in a well-formed verdict-response
header map (unique canonical keys), looking up any key in the copied
client headers yields the last value of that key's value list. -/
theorem hLookup_copyHeaders (h : Header) (k : String)
    (hnd : (h.map Prod.fst).Nodup) :
    hLookup (copyHeaders h) k = lastValue? (headerValues h k) := by
  rw [copyHeaders, hLookup_foldl_setEntry h k hnd []]
  cases lastValue? (headerValues h k) <;> rfl

/-- Claim C1: for every verdict response, `ServeHTTP` branches on its status
code exactly as: status < 400 invokes the upstream handler; status in
[400, 500) relays the verdict response regardless of `ignore500Error`;
status ≥ 500 relays when `ignore500Error` is false and invokes the
upstream handler when it is true. -/
theorem C1_verdict_status_branching (a : Modsecurity) (req : Request) (w : World)
    (body : List Nat) (resp : Response)
    (hws : isWebsocket req = false)
    (hread : w.readResult = .ok body)
    (hnr : w.newRequestError = none)
    (hdo : w.doResult = .ok resp) :
    (resp.statusCode < 400 →
        ServeHTTP a req w = ⟨.upstream (.buffered body), true⟩) ∧
    (400 ≤ resp.statusCode → resp.statusCode < 500 →
        ServeHTTP a req w = ⟨.relay (forwardResponse resp), true⟩) ∧
    (500 ≤ resp.statusCode → a.ignore500Error = false →
        ServeHTTP a req w = ⟨.relay (forwardResponse resp), true⟩) ∧
    (500 ≤ resp.statusCode → a.ignore500Error = true →
        ServeHTTP a req w = ⟨.upstream (.buffered body), true⟩) := by
  refine ⟨fun h => ?_, fun h4 h5 => ?_, fun h5 hig => ?_, fun h5 hig => ?_⟩
  · have hn : ¬ (400 ≤ resp.statusCode) := by omega
    simp [ServeHTTP, inspect, hws, hread, hnr, hdo, hn]
  · have hc : resp.statusCode < 500 ∨ a.ignore500Error = false := Or.inl h5
    simp [ServeHTTP, inspect, hws, hread, hnr, hdo, h4, hc]
  · have h4 : 400 ≤ resp.statusCode := by omega
    have hc : resp.statusCode < 500 ∨ a.ignore500Error = false := Or.inr hig
    simp [ServeHTTP, inspect, hws, hread, hnr, hdo, h4, hc]
  · have h4 : 400 ≤ resp.statusCode := by omega
    have hlt : ¬ resp.statusCode < 500 := by omega
    simp [ServeHTTP, inspect, hws, hread, hnr, hdo, h4, hlt, hig]

/-- Witness for C1 at a concrete input: a 503 verdict with
`ignore500Error = true` lets the request through to the upstream. -/
theorem C1_witness :
    ServeHTTP ⟨"http://waf:8080", 1024, true, true, "ms"⟩
        ⟨"GET", "/", [], [7]⟩ ⟨.ok [7], none, .ok ⟨503, [], []⟩⟩ =
      ⟨.upstream (.buffered [7]), true⟩ :=
  (C1_verdict_status_branching ⟨"http://waf:8080", 1024, true, true, "ms"⟩
      ⟨"GET", "/", [], [7]⟩ ⟨.ok [7], none, .ok ⟨503, [], []⟩⟩ [7] ⟨503, [], []⟩
      rfl rfl rfl rfl).2.2.2 (by decide) rfl

/-- Claim C2: for every request whose body length is at most `maxBodySize`
and whose verdict status is < 400, the upstream handler is invoked with a
request whose body is byte-for-byte the original inbound body, installed
as a fresh readable buffer over the captured bytes. -/
theorem C2_body_replayed_upstream (a : Modsecurity) (req : Request) (w : World)
    (resp : Response)
    (hws : isWebsocket req = false)
    (hread : w.readResult = readAllMaxBytes req.body a.maxBodySize)
    (hlen : (req.body.length : Int) ≤ a.maxBodySize)
    (hnr : w.newRequestError = none)
    (hdo : w.doResult = .ok resp)
    (hst : resp.statusCode < 400) :
    ServeHTTP a req w = ⟨.upstream (.buffered req.body), true⟩ := by
  have hr : w.readResult = .ok req.body := by
    rw [hread, readAllMaxBytes, if_pos hlen]
  have hn : ¬ (400 ≤ resp.statusCode) := by omega
  simp [ServeHTTP, inspect, hws, hr, hnr, hdo, hn]

/-- Witness for C2 at a concrete input. -/
theorem C2_witness :
    ServeHTTP ⟨"http://waf:8080", 1024, true, false, "ms"⟩
        ⟨"POST", "/a", [], [1, 2, 3]⟩
        ⟨readAllMaxBytes [1, 2, 3] 1024, none, .ok ⟨200, [], []⟩⟩ =
      ⟨.upstream (.buffered [1, 2, 3]), true⟩ :=
  C2_body_replayed_upstream ⟨"http://waf:8080", 1024, true, false, "ms"⟩
    ⟨"POST", "/a", [], [1, 2, 3]⟩
    ⟨readAllMaxBytes [1, 2, 3] 1024, none, .ok ⟨200, [], []⟩⟩ ⟨200, [], []⟩
    rfl rfl (by decide) rfl rfl (by decide)

/-- Claim C3: on the Block outcome the client response carries exactly the
verdict status code, the verdict headers copied with set (last-value-wins
per key) semantics, and the verdict body verbatim, and the upstream
handler is never invoked on this path. -/
theorem C3_block_relays_verdict (a : Modsecurity) (req : Request) (w : World)
    (body : List Nat) (resp : Response)
    (hws : isWebsocket req = false)
    (hread : w.readResult = .ok body)
    (hnr : w.newRequestError = none)
    (hdo : w.doResult = .ok resp)
    (hblock : 400 ≤ resp.statusCode)
    (hrelay : resp.statusCode < 500 ∨ a.ignore500Error = false) :
    (ServeHTTP a req w).result =
        .relay ⟨resp.statusCode, copyHeaders resp.header, resp.body⟩ ∧
    (∀ b, (ServeHTTP a req w).result ≠ .upstream b) ∧
    ((resp.header.map Prod.fst).Nodup → ∀ k,
        hLookup (copyHeaders resp.header) k =
          lastValue? (headerValues resp.header k)) := by
  have hres : ServeHTTP a req w = ⟨.relay (forwardResponse resp), true⟩ := by
    simp [ServeHTTP, inspect, hws, hread, hnr, hdo, hblock, hrelay]
  refine ⟨by rw [hres]; rfl, fun b => by rw [hres]; simp,
    fun hnd k => hLookup_copyHeaders resp.header k hnd⟩

/-- Witness for C3 at a concrete input: a 403 verdict with a duplicated
header value is relayed with last-value-wins headers. -/
theorem C3_witness :
    (ServeHTTP ⟨"http://waf:8080", 1024, true, false, "ms"⟩
        ⟨"GET", "/", [], [1]⟩
        ⟨.ok [1], none, .ok ⟨403, [("X-Reason", ["first", "second"])], [98]⟩⟩).result =
      .relay ⟨403, copyHeaders [("X-Reason", ["first", "second"])], [98]⟩ :=
  (C3_block_relays_verdict ⟨"http://waf:8080", 1024, true, false, "ms"⟩
      ⟨"GET", "/", [], [1]⟩
      ⟨.ok [1], none, .ok ⟨403, [("X-Reason", ["first", "second"])], [98]⟩⟩
      [1] ⟨403, [("X-Reason", ["first", "second"])], [98]⟩
      rfl rfl rfl rfl (by decide) (Or.inl (by decide))).1

/-- Counterexample to claim C4 as stated: a request whose body (3 bytes)
exceeds the maximum (2) but which carries `Upgrade: websocket` bypasses
inspection entirely, so with `interruptOnError = true` the client does
not receive 413 — the upstream handler is invoked instead. -/
theorem C4_counterexample :
    (([1, 2, 3] : List Nat).length : Int) > 2 ∧
    Modsecurity.interruptOnError ⟨"http://waf:8080", 2, true, false, "ms"⟩ = true ∧
    (ServeHTTP ⟨"http://waf:8080", 2, true, false, "ms"⟩
        ⟨"GET", "/", [("Upgrade", ["websocket"])], [1, 2, 3]⟩
        ⟨readAllMaxBytes [1, 2, 3] 2, none,
          .error "unreachable"⟩).result = .upstream .originalStream ∧
    (ServeHTTP ⟨"http://waf:8080", 2, true, false, "ms"⟩
        ⟨"GET", "/", [("Upgrade", ["websocket"])], [1, 2, 3]⟩
        ⟨readAllMaxBytes [1, 2, 3] 2, none,
          .error "unreachable"⟩).result ≠ .errorResponse 413 := by
  refine ⟨by decide, rfl, ?_, ?_⟩ <;>
    simp [ServeHTTP, isWebsocket, headerValues, List.find?]

/-- Claim C4 as amended: for every request that is not a websocket-upgrade
request and whose body size exceeds the configured maximum, the decision
service is not contacted, and the client receives 413 with an empty body
when `interruptOnError` is true, while the upstream handler is invoked
when it is false. -/
theorem C4_oversized_body_policy (a : Modsecurity) (req : Request) (w : World)
    (hws : isWebsocket req = false)
    (hread : w.readResult = readAllMaxBytes req.body a.maxBodySize)
    (hbig : a.maxBodySize < (req.body.length : Int)) :
    (ServeHTTP a req w).verdictContacted = false ∧
    (a.interruptOnError = true →
        (ServeHTTP a req w).result = .errorResponse 413) ∧
    (a.interruptOnError = false →
        (ServeHTTP a req w).result = .upstream .originalStream) := by
  have hr : w.readResult = .error "http: request body too large" := by
    rw [hread, readAllMaxBytes, if_neg (by omega)]
  refine ⟨?_, fun hi => ?_, fun hi => ?_⟩
  · by_cases hi : a.interruptOnError <;>
      simp [ServeHTTP, inspect, hws, hr, handleError, hi]
  · simp [ServeHTTP, inspect, hws, hr, handleError, hi]
  · simp [ServeHTTP, inspect, hws, hr, handleError, hi]

/-- Witness for the amended C4 at a concrete input. -/
theorem C4_witness :
    (ServeHTTP ⟨"http://waf:8080", 2, true, false, "ms"⟩
        ⟨"POST", "/up", [], [1, 2, 3]⟩
        ⟨readAllMaxBytes [1, 2, 3] 2, none,
          .error "unreachable"⟩).result = .errorResponse 413 :=
  (C4_oversized_body_policy ⟨"http://waf:8080", 2, true, false, "ms"⟩
      ⟨"POST", "/up", [], [1, 2, 3]⟩
      ⟨readAllMaxBytes [1, 2, 3] 2, none, .error "unreachable"⟩
      rfl rfl (by decide)).2.1 rfl

/-- Claim C5: a request carrying an `Upgrade` header value exactly equal to
"websocket" bypasses inspection: the body is never captured, the decision
service is never contacted, and the upstream handler is invoked directly
with the untouched request; without such a value, inspection proceeds. -/
theorem C5_websocket_bypass (a : Modsecurity) (req : Request) (w : World) :
    (isWebsocket req = true ↔ "websocket" ∈ headerValues req.header "Upgrade") ∧
    (isWebsocket req = true →
        ServeHTTP a req w = ⟨.upstream .originalStream, false⟩) ∧
    (isWebsocket req = false → ServeHTTP a req w = inspect a w) := by
  refine ⟨?_, fun h => ?_, fun h => ?_⟩
  · simp [isWebsocket, List.any_eq_true]
  · simp [ServeHTTP, h]
  · simp [ServeHTTP, h]

/-- Witness for C5 at a concrete input. -/
theorem C5_witness :
    ServeHTTP ⟨"http://waf:8080", 1024, true, false, "ms"⟩
        ⟨"GET", "/ws", [("Upgrade", ["websocket"])], [1]⟩
        ⟨.ok [1], none, .error "unreachable"⟩ =
      ⟨.upstream .originalStream, false⟩ :=
  (C5_websocket_bypass ⟨"http://waf:8080", 1024, true, false, "ms"⟩
      ⟨"GET", "/ws", [("Upgrade", ["websocket"])], [1]⟩
      ⟨.ok [1], none, .error "unreachable"⟩).2.1 (by decide)

/-- Claim C6: on every transport-level failure of the outbound verdict call
(including failure to construct the outbound request), the verdict is
never relayed and the error policy applies: `interruptOnError = true`
yields a 502 empty-body response, `interruptOnError = false` invokes the
upstream handler. -/
theorem C6_transport_failure_policy (a : Modsecurity) (req : Request) (w : World)
    (body : List Nat)
    (hws : isWebsocket req = false)
    (hread : w.readResult = .ok body)
    (hfail : (∃ msg, w.newRequestError = some msg) ∨
        (w.newRequestError = none ∧ ∃ e, w.doResult = .error e)) :
    (ServeHTTP a req w).result = handleError a (.buffered body) 502 ∧
    (a.interruptOnError = true →
        (ServeHTTP a req w).result = .errorResponse 502) ∧
    (a.interruptOnError = false →
        (ServeHTTP a req w).result = .upstream (.buffered body)) ∧
    (∀ cr, (ServeHTTP a req w).result ≠ .relay cr) := by
  have hres : (ServeHTTP a req w).result = handleError a (.buffered body) 502 := by
    rcases hfail with ⟨msg, hm⟩ | ⟨hn, e, he⟩
    · simp [ServeHTTP, inspect, hws, hread, hm]
    · simp [ServeHTTP, inspect, hws, hread, hn, he]
  refine ⟨hres, fun hi => ?_, fun hi => ?_, fun cr => ?_⟩
  · rw [hres]; simp [handleError, hi]
  · rw [hres]; simp [handleError, hi]
  · rw [hres]; by_cases hi : a.interruptOnError <;> simp [handleError, hi]

/-- Witness for C6 at a concrete input: the decision-service host is
unreachable and `interruptOnError = false`, so the upstream handler runs. -/
theorem C6_witness :
    (ServeHTTP ⟨"http://waf:8080", 1024, false, false, "ms"⟩
        ⟨"GET", "/", [], [1]⟩
        ⟨.ok [1], none, .error "connection refused"⟩).result =
      .upstream (.buffered [1]) :=
  (C6_transport_failure_policy ⟨"http://waf:8080", 1024, false, false, "ms"⟩
      ⟨"GET", "/", [], [1]⟩ ⟨.ok [1], none, .error "connection refused"⟩ [1]
      rfl rfl (Or.inr ⟨rfl, "connection refused", rfl⟩)).2.2.1 rfl

/-- Claim C7: every runtime panic in the per-request pipeline is caught by
the deferred recover at the gate boundary and resolved through the error
policy as a 502 transport-class failure: `interruptOnError = true` writes
a 502 empty-body response, `interruptOnError = false` invokes the
upstream handler. -/
theorem C7_panic_recovered (a : Modsecurity) (b : Body) (req : Request) (w : World) :
    ServeHTTPWithRecover a (some b) req w = handleError a b 502 ∧
    (a.interruptOnError = true →
        ServeHTTPWithRecover a (some b) req w = .errorResponse 502) ∧
    (a.interruptOnError = false →
        ServeHTTPWithRecover a (some b) req w = .upstream b) := by
  refine ⟨rfl, fun hi => ?_, fun hi => ?_⟩ <;>
    simp [ServeHTTPWithRecover, handleError, hi]

/-- Witness for C7 at a concrete input. -/
theorem C7_witness :
    ServeHTTPWithRecover ⟨"http://waf:8080", 1024, true, false, "ms"⟩
        (some .originalStream) ⟨"GET", "/", [], []⟩
        ⟨.ok [], none, .error "x"⟩ = .errorResponse 502 :=
  (C7_panic_recovered ⟨"http://waf:8080", 1024, true, false, "ms"⟩
      .originalStream ⟨"GET", "/", [], []⟩ ⟨.ok [], none, .error "x"⟩).2.1 rfl

/-- Claim C8: `New` fails with an error (and no gate instance) exactly when
the configured decision-service URL is empty, and otherwise returns a
gate holding the supplied configuration. -/
theorem C8_new_requires_url (config : Config) (name : String) :
    (config.modSecurityUrl.length = 0 →
        New config name = .error "modSecurityUrl cannot be empty") ∧
    (config.modSecurityUrl.length ≠ 0 →
        New config name = .ok ⟨config.modSecurityUrl, config.maxBodySize,
          config.interruptOnError, config.ignore500Error, name⟩) := by
  constructor <;> intro h <;> simp [New, h]

/-- Witness for C8 at a concrete input. -/
theorem C8_witness :
    New ⟨"http://waf:8080", 1024, true, false⟩ "ms" =
      .ok ⟨"http://waf:8080", 1024, true, false, "ms"⟩ :=
  (C8_new_requires_url ⟨"http://waf:8080", 1024, true, false⟩ "ms").2 (by decide)

/-- Claim C9: routing of body-read failures is decided by string equality
on the error message: exactly the message "http: request body too large"
is routed to the error policy with status 413, and every other read-error
message is routed with status 502. -/
theorem C9_read_error_string_routing (a : Modsecurity) (req : Request)
    (w : World) (msg : String)
    (hws : isWebsocket req = false)
    (hread : w.readResult = .error msg) :
    (msg = "http: request body too large" →
        ServeHTTP a req w = ⟨handleError a .originalStream 413, false⟩) ∧
    (msg ≠ "http: request body too large" →
        ServeHTTP a req w = ⟨handleError a .originalStream 502, false⟩) := by
  constructor <;> intro h
  · simp [ServeHTTP, inspect, hws, hread, h]
  · have hb : (msg == "http: request body too large") = false := by
      simpa [beq_eq_false_iff_ne] using h
    simp [ServeHTTP, inspect, hws, hread, hb]

/-- Witness for C9 at a concrete input: an unexpected read error is routed
with 502, not 413. -/
theorem C9_witness :
    ServeHTTP ⟨"http://waf:8080", 1024, true, false, "ms"⟩
        ⟨"GET", "/", [], [1]⟩
        ⟨.error "unexpected EOF", none, .error "x"⟩ =
      ⟨handleError ⟨"http://waf:8080", 1024, true, false, "ms"⟩ .originalStream 502,
        false⟩ :=
  (C9_read_error_string_routing ⟨"http://waf:8080", 1024, true, false, "ms"⟩
      ⟨"GET", "/", [], [1]⟩ ⟨.error "unexpected EOF", none, .error "x"⟩
      "unexpected EOF" rfl rfl).2 (by decide)

/-- Claim C10: when `interruptOnError` is false and the capture fails (the
body read returns any error), the fail-open path invokes the upstream
handler with `req.Body` still the original, partially-consumed stream —
it is never the fresh replayable buffer, which is installed only after a
successful read. -/
theorem C10_failopen_keeps_consumed_stream (a : Modsecurity) (req : Request)
    (w : World) (msg : String)
    (hws : isWebsocket req = false)
    (hread : w.readResult = .error msg)
    (hcont : a.interruptOnError = false) :
    (ServeHTTP a req w).result = .upstream .originalStream ∧
    ∀ bytes, (ServeHTTP a req w).result ≠ .upstream (.buffered bytes) := by
  have hres : (ServeHTTP a req w).result = .upstream .originalStream := by
    by_cases hb : (msg == "http: request body too large") = true <;>
      simp [ServeHTTP, inspect, hws, hread, hb, handleError, hcont]
  exact ⟨hres, fun bytes => by rw [hres]; simp⟩

/-- Witness for C10 at a concrete input. -/
theorem C10_witness :
    (ServeHTTP ⟨"http://waf:8080", 2, false, false, "ms"⟩
        ⟨"POST", "/", [], [1, 2, 3]⟩
        ⟨readAllMaxBytes [1, 2, 3] 2, none,
          .error "x"⟩).result = .upstream .originalStream :=
  (C10_failopen_keeps_consumed_stream ⟨"http://waf:8080", 2, false, false, "ms"⟩
      ⟨"POST", "/", [], [1, 2, 3]⟩
      ⟨readAllMaxBytes [1, 2, 3] 2, none, .error "x"⟩
      "http: request body too large" rfl rfl rfl).1

end ModsecurityPlugin
